import Mathlib

/-!
Shallow embedding of the authentication core of the finetunepc backend:
app/core/security.py (PasswordManager, JWTManager, SecurityUtils, RateLimiter),
app/schemas/auth.py (UserRegisterRequest password validator, TokenType), and
app/services/auth_service.py (AuthenticationService), together with proofs
about the embedded operations.

Modelling conventions:
- datetimes and unix timestamps are Int (seconds); the injectable clock is an
  explicit `now` argument threaded through each operation;
- bcrypt (via passlib) is modelled ideally: a well-formed digest determines the
  plaintext it was produced from, and verification succeeds exactly on that
  plaintext; a digest string passlib cannot identify is `Digest.malformed`,
  on which passlib raises UnknownHashError (CryptContext.verify raises for
  unidentifiable hashes rather than returning False);
- a JWT string is either `TokenStr.valid p` (well-formed payload `p`, signed
  with the process secret) or `TokenStr.invalid s` (bad signature, malformed
  payload, or unsupported algorithm); jose's jwt.encode is injective on
  payloads for a fixed secret, so `valid` carries the payload itself;
- jose's jwt.decode runs with default options, which include verify_exp=True:
  a token whose exp claim is strictly below the current time raises
  ExpiredSignatureError, a subclass of the JWTError that decode_token catches;
- sha256 (SecurityUtils.hash_token) is modelled as an injective function
  (collision-freeness idealization): `TokenHash` simply wraps the token;
- Python character classes (isupper/islower/isdigit) are modelled by Lean's
  ASCII Char.isUpper/isLower/isDigit; all inputs of interest are ASCII;
- SQLAlchemy stores are lists of records; a query that mutates the single row
  matched by a primary-key filter is modelled as a conditional map over the
  list (the condition repeats the query's WHERE clause, so with unique ids it
  rewrites exactly the matched row).
-/

/-! ## PasswordManager (app/core/security.py) -/

/-- The special-character set of PasswordManager.is_password_strong. -/
def special_characters : String := "!@#$%^&*()_+-=[]\x7b\x7d|;:,.<>?"

/-- PasswordManager.is_password_strong. The Python guard `not password` is the
empty-string truthiness test, i.e. length = 0. -/
def is_password_strong (password : String) : Bool :=
  if password.length = 0 || password.length < 8 then
    false
  else
    let has_upper := password.toList.any (fun c => c.isUpper)
    let has_lower := password.toList.any (fun c => c.isLower)
    let has_digit := password.toList.any (fun c => c.isDigit)
    let has_special := password.toList.any (fun c => special_characters.toList.contains c)
    has_upper && has_lower && has_digit && has_special

/-- A stored password digest, as passlib's CryptContext(schemes=["bcrypt"])
sees it: either a well-formed bcrypt hash (ideal-hash model: the digest
determines the hashed plaintext and the salt) or a string the context cannot
identify. -/
inductive Digest
  | bcrypt (salt : Nat) (password : String)
  | malformed (s : String)
deriving DecidableEq, Repr

/-- The exception passlib's CryptContext.verify raises when the hash string
cannot be identified as any configured scheme. -/
inductive PasslibError
  | unknownHash
deriving DecidableEq, Repr

/-- passlib CryptContext.verify: True iff the plaintext matches the digest;
raises UnknownHashError on an unidentifiable digest. -/
def pwd_context_verify (plain : String) (digest : Digest) : Except PasslibError Bool :=
  match digest with
  | .bcrypt _ pw => .ok (plain == pw)
  | .malformed _ => .error .unknownHash

/-- PasswordManager.verify_password: delegates to pwd_context.verify with no
exception handling, so the UnknownHashError propagates. -/
def verify_password (plain_password : String) (hashed_password : Digest) :
    Except PasslibError Bool :=
  pwd_context_verify plain_password hashed_password

/-- PasswordManager.hash_password: bcrypt with a random salt; the salt is an
explicit argument here. -/
def hash_password (password : String) (salt : Nat) : Digest :=
  .bcrypt salt password

/-! ## TokenType and JWT payloads (app/schemas/auth.py, app/core/security.py) -/

/-- TokenType enumeration (app/schemas/auth.py). -/
inductive TokenType
  | ACCESS
  | REFRESH
  | EMAIL_VERIFICATION
  | PASSWORD_RESET
deriving DecidableEq, Repr

/-- The .value string of each TokenType member. -/
def TokenType.value : TokenType → String
  | .ACCESS => "access"
  | .REFRESH => "refresh"
  | .EMAIL_VERIFICATION => "email_verification"
  | .PASSWORD_RESET => "password_reset"

/-- A decoded JWT claims dict. The dict keys written by the create_* methods
are modelled as fields; token_type, session_id and exp are Option because the
service reads them with .get (a payload may lack them). The falsy values of
exp are `none` (missing) and `some 0`. -/
structure JWTPayload where
  sub : String
  email : String
  token_type : Option String := none
  session_id : Option String := none
  exp : Option Int := none
  iat : Int := 0
deriving DecidableEq, Repr

/-- A token string: either well-formed and signed with the process secret
(jwt.encode of the given payload), or anything decode rejects for structural
or signature reasons. -/
inductive TokenStr
  | valid (payload : JWTPayload)
  | invalid (s : String)
deriving DecidableEq, Repr

/-- JWTManager token lifetime constants, in their source units. -/
def ACCESS_TOKEN_EXPIRE_MINUTES : Int := 30

def REFRESH_TOKEN_EXPIRE_DAYS : Int := 30

def EMAIL_VERIFICATION_EXPIRE_HOURS : Int := 24

def PASSWORD_RESET_EXPIRE_HOURS : Int := 1

/-- JWTManager.create_access_token: exp = now + expires_delta, defaulting to
30 minutes; iat = now. -/
def create_access_token (user_id email session_id : String) (now : Int)
    (expires_delta : Option Int := none) : TokenStr :=
  .valid { sub := user_id, email := email, token_type := some TokenType.ACCESS.value,
           session_id := some session_id,
           exp := some (now + expires_delta.getD (ACCESS_TOKEN_EXPIRE_MINUTES * 60)),
           iat := now }

/-- JWTManager.create_refresh_token: default lifetime 30 days. -/
def create_refresh_token (user_id email session_id : String) (now : Int)
    (expires_delta : Option Int := none) : TokenStr :=
  .valid { sub := user_id, email := email, token_type := some TokenType.REFRESH.value,
           session_id := some session_id,
           exp := some (now + expires_delta.getD (REFRESH_TOKEN_EXPIRE_DAYS * 86400)),
           iat := now }

/-- JWTManager.create_email_verification_token: default lifetime 24 hours; no
session_id claim. -/
def create_email_verification_token (user_id email : String) (now : Int)
    (expires_delta : Option Int := none) : TokenStr :=
  .valid { sub := user_id, email := email,
           token_type := some TokenType.EMAIL_VERIFICATION.value,
           exp := some (now + expires_delta.getD (EMAIL_VERIFICATION_EXPIRE_HOURS * 3600)),
           iat := now }

/-- JWTManager.create_password_reset_token: default lifetime 1 hour; no
session_id claim. -/
def create_password_reset_token (user_id email : String) (now : Int)
    (expires_delta : Option Int := none) : TokenStr :=
  .valid { sub := user_id, email := email,
           token_type := some TokenType.PASSWORD_RESET.value,
           exp := some (now + expires_delta.getD (PASSWORD_RESET_EXPIRE_HOURS * 3600)),
           iat := now }

/-- jose jwt.decode's default exp verification (_validate_exp, leeway 0): an
exp claim strictly below the current time raises ExpiredSignatureError; a
payload without exp is not checked. -/
def jose_exp_expired (now : Int) (p : JWTPayload) : Bool :=
  match p.exp with
  | some e => e < now
  | none => false

/-- JWTManager.decode_token: jose jwt.decode with default options (signature
AND exp verification), catching JWTError — which includes
ExpiredSignatureError — and returning None. -/
def decode_token (now : Int) (t : TokenStr) : Option JWTPayload :=
  match t with
  | .valid p => if jose_exp_expired now p then none else some p
  | .invalid _ => none

/-- JWTManager.validate_token_type: payload.get("token_type") equals the
expected member's value. -/
def validate_token_type (payload : JWTPayload) (expected : TokenType) : Bool :=
  payload.token_type == some expected.value

/-- JWTManager.is_token_expired: exp = payload.get("exp"); if not exp: return
True; return now > exp. The falsy exp values are missing (none) and 0. -/
def is_token_expired (now : Int) (payload : JWTPayload) : Bool :=
  match payload.exp with
  | none => true
  | some e => if e = 0 then true else decide (now > e)

/-- SecurityUtils.hash_token output (sha256 hex digest), under the
collision-freeness idealization: the hash of a token determines the token. -/
structure TokenHash where
  of : TokenStr
deriving DecidableEq, Repr

/-- SecurityUtils.hash_token. -/
def hash_token (token : TokenStr) : TokenHash :=
  ⟨token⟩

/-! ## UserRegisterRequest password validator (app/schemas/auth.py) -/

/-- UserRegisterRequest.validate_password: the pydantic validator run on the
password field at registration. It checks length, uppercase, lowercase and
digit — and nothing else. -/
def UserRegisterRequest_validate_password (v : String) : Except String String :=
  if v.length < 8 then
    .error "Password must be at least 8 characters long"
  else if !(v.toList.any (fun c => c.isUpper)) then
    .error "Password must contain at least one uppercase letter"
  else if !(v.toList.any (fun c => c.isLower)) then
    .error "Password must contain at least one lowercase letter"
  else if !(v.toList.any (fun c => c.isDigit)) then
    .error "Password must contain at least one digit"
  else
    .ok v

/-! ## Claims about PasswordManager and JWTManager -/

/-- Claim C9: is_password_strong returns true iff the password has length at
least 8 and contains at least one uppercase letter, one lowercase letter, one
digit, and one character from the defined special-character set; in
particular it accepts "TestPassword123!". -/
theorem is_password_strong_iff :
    (∀ p : String, is_password_strong p = true ↔
      (8 ≤ p.length ∧ (∃ c ∈ p.toList, c.isUpper = true) ∧
       (∃ c ∈ p.toList, c.isLower = true) ∧ (∃ c ∈ p.toList, c.isDigit = true) ∧
       (∃ c ∈ p.toList, c ∈ special_characters.toList)))
    ∧ is_password_strong "TestPassword123!" = true := by
  constructor
  · intro p
    unfold is_password_strong
    by_cases h : (p.length = 0 || decide (p.length < 8)) = true
    · rw [if_pos h]
      simp only [Bool.or_eq_true, decide_eq_true_eq] at h
      refine iff_of_false (by simp) ?_
      rintro ⟨hc, -⟩
      omega
    · rw [if_neg h]
      simp only [Bool.or_eq_true, decide_eq_true_eq, not_or] at h
      have h8 : 8 ≤ p.length := by omega
      simp only [Bool.and_eq_true, List.any_eq_true, h8, true_and]
      constructor
      · rintro ⟨⟨⟨hu, hl⟩, hd⟩, hs⟩
        refine ⟨hu, hl, hd, ?_⟩
        obtain ⟨c, hc, hmem⟩ := hs
        exact ⟨c, hc, by simpa using hmem⟩
      · rintro ⟨hu, hl, hd, c, hc, hmem⟩
        exact ⟨⟨⟨hu, hl⟩, hd⟩, ⟨c, hc, by simpa using hmem⟩⟩
  · decide

/-- Claim C4 counterexample: verify_password on a malformed digest raises
passlib's UnknownHashError instead of returning false — the claim that it
"never throws on malformed digest, returns false" is refuted. -/
theorem verify_password_malformed_counterexample :
    verify_password "password" (Digest.malformed "not-a-bcrypt-hash") =
      Except.error PasslibError.unknownHash ∧
    verify_password "password" (Digest.malformed "not-a-bcrypt-hash") ≠
      Except.ok false := by
  constructor
  · rfl
  · intro h
    simp [verify_password, pwd_context_verify] at h

/-- Claim C4 (amended): for a well-formed bcrypt digest, verify_password
returns a boolean — true iff the plaintext matches — but on a malformed
digest it propagates passlib's UnknownHashError exception rather than
returning false. -/
theorem verify_password_spec :
    (∀ (p : String) (salt : Nat) (pw : String),
      verify_password p (Digest.bcrypt salt pw) = Except.ok (p == pw))
    ∧ (∀ (p s : String),
      verify_password p (Digest.malformed s) = Except.error PasslibError.unknownHash) :=
  ⟨fun _ _ _ => rfl, fun _ _ => rfl⟩

/-- Claim C5 counterexample: "Password1" has no character from the
special-character set — is_password_strong rejects it — yet the registration
password validator accepts it, so a password missing a special character is
NOT rejected at registration. -/
theorem register_validator_accepts_no_special_counterexample :
    UserRegisterRequest_validate_password "Password1" = Except.ok "Password1" ∧
    is_password_strong "Password1" = false := by
  constructor
  · rfl
  · decide

/-- Claim C5 (amended): the registration password validator accepts exactly
the passwords of length at least 8 containing at least one uppercase letter,
one lowercase letter and one digit; it imposes no special-character
requirement. -/
theorem register_validator_iff :
    ∀ v : String, UserRegisterRequest_validate_password v = Except.ok v ↔
      (8 ≤ v.length ∧ (∃ c ∈ v.toList, c.isUpper = true) ∧
       (∃ c ∈ v.toList, c.isLower = true) ∧ (∃ c ∈ v.toList, c.isDigit = true)) := by
  intro v
  unfold UserRegisterRequest_validate_password
  by_cases hlen : v.length < 8
  · rw [if_pos hlen]
    simp only [false_iff, reduceCtorEq]
    intro hc
    omega
  · rw [if_neg hlen]
    have h8 : 8 ≤ v.length := by omega
    by_cases hu : v.toList.any (fun c => c.isUpper) = true
    · rw [if_neg (by simpa using hu)]
      by_cases hl : v.toList.any (fun c => c.isLower) = true
      · rw [if_neg (by simpa using hl)]
        by_cases hd : v.toList.any (fun c => c.isDigit) = true
        · rw [if_neg (by simpa using hd)]
          simp only [List.any_eq_true] at hu hl hd
          exact iff_of_true rfl ⟨h8, hu, hl, hd⟩
        · rw [if_pos (by simp_all)]
          refine iff_of_false (by simp) ?_
          rintro ⟨-, -, -, c, hc, hcd⟩
          exact hd (List.any_eq_true.mpr ⟨c, hc, hcd⟩)
      · rw [if_pos (by simp_all)]
        refine iff_of_false (by simp) ?_
        rintro ⟨-, -, ⟨c, hc, hcl⟩, -⟩
        exact hl (List.any_eq_true.mpr ⟨c, hc, hcl⟩)
    · rw [if_pos (by simp_all)]
      refine iff_of_false (by simp) ?_
      rintro ⟨-, ⟨c, hc, hcu⟩, -⟩
      exact hu (List.any_eq_true.mpr ⟨c, hc, hcu⟩)

/-- Claim C1 counterexample: a token whose signature is valid and whose
payload is well-formed but whose expiry (exp = 5) lies before the current
time (now = 10) is decoded to nothing, not to its claims — jose's jwt.decode
verifies exp by default and decode_token catches the resulting
ExpiredSignatureError. (The payload is one the application itself would have
signed: an access token minted at time 0 with a 5-second lifetime.) -/
theorem decode_token_expired_counterexample :
    decode_token 10 (create_access_token "user123" "test@example.com" "session123" 0 (some 5)) =
      none ∧
    is_token_expired 10
      { sub := "user123", email := "test@example.com",
        token_type := some TokenType.ACCESS.value, session_id := some "session123",
        exp := some 5, iat := 0 } = true := by
  constructor
  · rfl
  · rfl

/-- Claim C1 (amended): for every validly-signed, well-formed token whose exp
claim lies strictly in the past, decode_token returns nothing — expiry IS
checked inside decode (jose's default verify_exp), so at the decode layer an
expired token is indistinguishable from an invalid one; is_token_expired on
such a payload does return true, but no caller can reach those claims through
decode_token. -/
theorem decode_token_none_of_expired (now : Int) (p : JWTPayload) (e : Int)
    (hexp : p.exp = some e) (hpast : e < now) :
    decode_token now (TokenStr.valid p) = none ∧ is_token_expired now p = true := by
  constructor
  · simp [decode_token, jose_exp_expired, hexp, hpast]
  · unfold is_token_expired
    rw [hexp]
    by_cases h0 : e = 0
    · simp [h0]
    · simp [h0]
      omega

/-- Claim C1 amended-theorem witness: concrete instance at exp = 5, now = 10. -/
theorem decode_token_none_of_expired_witness :
    decode_token 10 (TokenStr.valid { sub := "u", email := "e", exp := some 5 }) = none ∧
    is_token_expired 10 ({ sub := "u", email := "e", exp := some 5 } : JWTPayload) = true :=
  decode_token_none_of_expired 10 { sub := "u", email := "e", exp := some 5 } 5 rfl (by decide)

/-- Claim C10: a claims payload whose exp entry is missing or falsy (Python
`not exp`: the entry is absent, or it is 0) is reported expired by
is_token_expired — such a token counts as already expired, not as never
expiring. -/
theorem is_token_expired_of_missing_exp (now : Int) (p : JWTPayload)
    (h : p.exp = none ∨ p.exp = some 0) :
    is_token_expired now p = true := by
  unfold is_token_expired
  rcases h with h | h
  · rw [h]
  · rw [h]
    simp

/-- Claim C10 witness: concrete instances for both falsy forms of exp, at an
arbitrary concrete time. -/
theorem is_token_expired_of_missing_exp_witness :
    is_token_expired 1000 ({ sub := "u", email := "e", exp := none } : JWTPayload) = true ∧
    is_token_expired 1000 ({ sub := "u", email := "e", exp := some 0 } : JWTPayload) = true :=
  ⟨is_token_expired_of_missing_exp 1000 { sub := "u", email := "e", exp := none } (Or.inl rfl),
   is_token_expired_of_missing_exp 1000 { sub := "u", email := "e", exp := some 0 } (Or.inr rfl)⟩

/-! ## RateLimiter (app/core/security.py) -/

/-- The RateLimiter's in-memory state: the _attempts and _blocked dicts. A
dict is modelled by its lookup function; a key absent from _attempts behaves
exactly like a key mapped to [] (is_allowed initializes missing keys to []
before reading them), and deletion from _blocked is mapping to none. -/
structure RateLimiterState where
  attempts : String → List Int
  blocked : String → Option Int

/-- A freshly constructed RateLimiter: both dicts empty. -/
def RateLimiterState.init : RateLimiterState :=
  ⟨fun _ => [], fun _ => none⟩

/-- The prune-check-record tail of RateLimiter.is_allowed (everything after
the blocked-dict handling): prune attempts older than the window, then either
record this attempt and allow, or store the pruned list, block the key for a
full window, and deny. -/
def prune_and_record (st : RateLimiterState) (key : String) (max_attempts : Nat)
    (window_minutes now : Int) : Bool × RateLimiterState :=
  let window_start := now - window_minutes * 60
  let kept := (st.attempts key).filter (fun t => window_start < t)
  if kept.length < max_attempts then
    (true, { st with attempts := fun k => if k == key then kept ++ [now] else st.attempts k })
  else
    (false, { attempts := fun k => if k == key then kept else st.attempts k,
              blocked := fun k => if k == key then some (now + window_minutes * 60) else st.blocked k })

/-- RateLimiter.is_allowed: if the key is blocked and the block has not
elapsed, deny without touching anything; if the block has elapsed, unblock
and fall through to the sliding-window check. -/
def is_allowed (st : RateLimiterState) (key : String) (max_attempts : Nat)
    (window_minutes now : Int) : Bool × RateLimiterState :=
  match st.blocked key with
  | some untilT =>
    if now < untilT then
      (false, st)
    else
      prune_and_record
        { st with blocked := fun k => if k == key then none else st.blocked k }
        key max_attempts window_minutes now
  | none => prune_and_record st key max_attempts window_minutes now

/-- RateLimiter.reset_attempts: drop the key from both dicts. -/
def reset_attempts (st : RateLimiterState) (key : String) : RateLimiterState :=
  { attempts := fun k => if k == key then [] else st.attempts k,
    blocked := fun k => if k == key then none else st.blocked k }

/-- RateLimiter.get_retry_after: seconds until a blocked key unblocks;
nothing when the key is not blocked or the block has elapsed. -/
def get_retry_after (st : RateLimiterState) (key : String) (now : Int) : Option Int :=
  match st.blocked key with
  | some untilT => if now < untilT then some (untilT - now) else none
  | none => none

/-- RateLimiter.clear_all. -/
def clear_all (_st : RateLimiterState) : RateLimiterState :=
  RateLimiterState.init

/-! ### Rate limiter lemmas -/

/-- An is_allowed call on one key reads and writes only that key's entries in
the two dicts. -/
theorem is_allowed_other_key (st : RateLimiterState) (key : String) (m : Nat)
    (w now : Int) (k2 : String) (h : k2 ≠ key) :
    (is_allowed st key m w now).2.attempts k2 = st.attempts k2 ∧
    (is_allowed st key m w now).2.blocked k2 = st.blocked k2 := by
  have hbeq : (k2 == key) = false := by
    simp [h]
  unfold is_allowed prune_and_record
  rcases hb : st.blocked key with _ | untilT
  · dsimp only
    split <;> simp [hbeq]
  · dsimp only
    split
    · exact ⟨rfl, rfl⟩
    · split <;> simp [hbeq]

/-- The outcome of an is_allowed call depends only on the key's own entries
in the two dicts. -/
theorem is_allowed_outcome_local (st st' : RateLimiterState) (key : String)
    (m : Nat) (w now : Int) (ha : st.attempts key = st'.attempts key)
    (hb : st.blocked key = st'.blocked key) :
    (is_allowed st key m w now).1 = (is_allowed st' key m w now).1 := by
  unfold is_allowed prune_and_record
  rw [hb, ha]
  rcases st'.blocked key with _ | untilT
  · dsimp only
    split
    · rfl
    · rfl
  · dsimp only
    split
    · rfl
    · split
      · rfl
      · rfl

/-- An unblocked key with fewer than max_attempts in-window attempts is
allowed: the attempt is recorded after the pruned list and the key stays
unblocked. -/
theorem is_allowed_true_of (st : RateLimiterState) (key : String) (m : Nat)
    (w now : Int) (hb : st.blocked key = none)
    (hlen : ((st.attempts key).filter (fun t => decide (now - w * 60 < t))).length < m) :
    (is_allowed st key m w now).1 = true ∧
    (is_allowed st key m w now).2.attempts key =
      ((st.attempts key).filter (fun t => decide (now - w * 60 < t))) ++ [now] ∧
    (is_allowed st key m w now).2.blocked key = none := by
  unfold is_allowed prune_and_record
  rw [hb]
  dsimp only
  rw [if_pos hlen]
  refine ⟨rfl, ?_, hb⟩
  simp

/-- An unblocked key whose in-window attempts already reach max_attempts is
denied: the pruned list is stored and the key is blocked for a full window. -/
theorem is_allowed_false_of (st : RateLimiterState) (key : String) (m : Nat)
    (w now : Int) (hb : st.blocked key = none)
    (hlen : ¬ ((st.attempts key).filter (fun t => decide (now - w * 60 < t))).length < m) :
    (is_allowed st key m w now).1 = false ∧
    (is_allowed st key m w now).2.attempts key =
      (st.attempts key).filter (fun t => decide (now - w * 60 < t)) ∧
    (is_allowed st key m w now).2.blocked key = some (now + w * 60) := by
  unfold is_allowed prune_and_record
  rw [hb]
  dsimp only
  rw [if_neg hlen]
  refine ⟨rfl, ?_, ?_⟩ <;> simp

/-- Claim C8: with maxAttempts = 3 and windowMinutes = 1, on a fresh key and
with no time advance beyond the window across the four calls, the first three
is_allowed calls return true and the fourth returns false; after
reset_attempts on that key the next call returns true again; and an
is_allowed call under one key never changes the outcome of an is_allowed call
under a different key. -/
theorem rate_limiter_window_spec (st : RateLimiterState) (key : String)
    (t1 t2 t3 t4 t5 : Int)
    (hfa : st.attempts key = []) (hfb : st.blocked key = none)
    (h12 : t1 ≤ t2) (h23 : t2 ≤ t3) (h34 : t3 ≤ t4) (hw : t4 < t1 + 60) :
    (is_allowed st key 3 1 t1).1 = true ∧
    (is_allowed (is_allowed st key 3 1 t1).2 key 3 1 t2).1 = true ∧
    (is_allowed (is_allowed (is_allowed st key 3 1 t1).2 key 3 1 t2).2 key 3 1 t3).1 = true ∧
    (is_allowed (is_allowed (is_allowed (is_allowed st key 3 1 t1).2 key 3 1 t2).2
        key 3 1 t3).2 key 3 1 t4).1 = false ∧
    (is_allowed (reset_attempts (is_allowed (is_allowed (is_allowed (is_allowed st key 3 1
        t1).2 key 3 1 t2).2 key 3 1 t3).2 key 3 1 t4).2 key) key 3 1 t5).1 = true ∧
    (∀ (st' : RateLimiterState) (k2 : String) (m : Nat) (w now now' : Int), k2 ≠ key →
      (is_allowed (is_allowed st' key m w now).2 k2 m w now').1 =
        (is_allowed st' k2 m w now').1) := by
  have f2 : List.filter (fun t => decide (t2 - 1 * 60 < t)) [t1] = [t1] := by
    have hc1 : t2 - 60 < t1 := by omega
    simp [List.filter_cons, hc1]
  have f3 : List.filter (fun t => decide (t3 - 1 * 60 < t)) [t1, t2] = [t1, t2] := by
    have hc1 : t3 - 60 < t1 := by omega
    have hc2 : t3 - 60 < t2 := by omega
    simp [List.filter_cons, hc1, hc2]
  have f4 : List.filter (fun t => decide (t4 - 1 * 60 < t)) [t1, t2, t3] = [t1, t2, t3] := by
    have hc1 : t4 - 60 < t1 := by omega
    have hc2 : t4 - 60 < t2 := by omega
    have hc3 : t4 - 60 < t3 := by omega
    simp [List.filter_cons, hc1, hc2, hc3]
  obtain ⟨r1, a1, b1⟩ := is_allowed_true_of st key 3 1 t1 hfb (by rw [hfa]; simp)
  rw [hfa] at a1
  simp only [List.filter_nil, List.nil_append] at a1
  obtain ⟨r2, a2, b2⟩ := is_allowed_true_of (is_allowed st key 3 1 t1).2 key 3 1 t2 b1
    (by rw [a1, f2]; simp)
  rw [a1, f2] at a2
  simp only [List.singleton_append, List.cons_append, List.nil_append] at a2
  obtain ⟨r3, a3, b3⟩ := is_allowed_true_of
    (is_allowed (is_allowed st key 3 1 t1).2 key 3 1 t2).2 key 3 1 t3 b2
    (by rw [a2, f3]; simp)
  rw [a2, f3] at a3
  simp only [List.cons_append, List.nil_append] at a3
  obtain ⟨r4, a4, b4⟩ := is_allowed_false_of
    (is_allowed (is_allowed (is_allowed st key 3 1 t1).2 key 3 1 t2).2 key 3 1 t3).2
    key 3 1 t4 b3 (by rw [a3, f4]; simp)
  have hreset_a : (reset_attempts (is_allowed (is_allowed (is_allowed (is_allowed st key 3 1
      t1).2 key 3 1 t2).2 key 3 1 t3).2 key 3 1 t4).2 key).attempts key = [] := by
    simp [reset_attempts]
  have hreset_b : (reset_attempts (is_allowed (is_allowed (is_allowed (is_allowed st key 3 1
      t1).2 key 3 1 t2).2 key 3 1 t3).2 key 3 1 t4).2 key).blocked key = none := by
    simp [reset_attempts]
  obtain ⟨r5, -, -⟩ := is_allowed_true_of _ key 3 1 t5 hreset_b (by rw [hreset_a]; simp)
  refine ⟨r1, r2, r3, r4, r5, ?_⟩
  intro st' k2 m w now now' hk
  exact is_allowed_outcome_local _ _ _ _ _ _
    (is_allowed_other_key st' key m w now k2 hk).1
    (is_allowed_other_key st' key m w now k2 hk).2

/-- Claim C8 witness: concrete run on a fresh limiter, key "login:a", calls
at times 0, 1, 2, 3, reset, call at time 4, and a non-interference instance
for key "login:b". -/
theorem rate_limiter_window_spec_witness :
    (is_allowed RateLimiterState.init "login:a" 3 1 0).1 = true ∧
    (is_allowed (is_allowed RateLimiterState.init "login:a" 3 1 0).2 "login:a" 3 1 1).1 = true ∧
    (is_allowed (is_allowed (is_allowed RateLimiterState.init "login:a" 3 1 0).2 "login:a"
        3 1 1).2 "login:a" 3 1 2).1 = true ∧
    (is_allowed (is_allowed (is_allowed (is_allowed RateLimiterState.init "login:a" 3 1 0).2
        "login:a" 3 1 1).2 "login:a" 3 1 2).2 "login:a" 3 1 3).1 = false ∧
    (is_allowed (reset_attempts (is_allowed (is_allowed (is_allowed (is_allowed
        RateLimiterState.init "login:a" 3 1 0).2 "login:a" 3 1 1).2 "login:a" 3 1 2).2
        "login:a" 3 1 3).2 "login:a") "login:a" 3 1 4).1 = true ∧
    (is_allowed (is_allowed RateLimiterState.init "login:a" 3 1 0).2 "login:b" 3 1 0).1 =
      (is_allowed RateLimiterState.init "login:b" 3 1 0).1 := by
  have h := rate_limiter_window_spec RateLimiterState.init "login:a" 0 1 2 3 4 rfl rfl
    (by decide) (by decide) (by decide) (by decide)
  exact ⟨h.1, h.2.1, h.2.2.1, h.2.2.2.1, h.2.2.2.2.1,
    h.2.2.2.2.2 RateLimiterState.init "login:b" 3 1 0 0 (by decide)⟩

/-! ## Data model (app/models/user.py, app/models/user_session.py) -/

/-- A users-table row. Profile columns not read by the auth service
(first_name, last_name, phone_number, stripe_customer_id, is_superuser,
created_at, updated_at) are omitted; deleted_at is the soft-delete timestamp
(none means not deleted, truthy when present). -/
structure User where
  id : String
  email : String
  hashed_password : Digest
  email_verified : Bool
  is_active : Bool
  deleted_at : Option Int := none
deriving DecidableEq, Repr

/-- A user_sessions-table row. created_at/updated_at are omitted; the token
hash columns start as "" at session creation, modelled as none. -/
structure UserSession where
  id : String
  user_id : String
  access_token_hash : Option TokenHash := none
  refresh_token_hash : Option TokenHash := none
  access_token_expires_at : Int
  refresh_token_expires_at : Int
  ip_address : Option String := none
  user_agent : Option String := none
  device_fingerprint : Option String := none
  is_active : Bool
  last_used_at : Option Int := none
deriving DecidableEq, Repr

/-! ## AuthenticationService (app/services/auth_service.py) -/

/-- The error signals the service raises: HTTPException(status_code, detail),
or an exception from a collaborator (passlib) escaping uncaught. -/
inductive AuthError
  | http (statusCode : Nat) (detail : String)
  | passlib (e : PasslibError)
deriving DecidableEq, Repr

/-- AuthenticationService._get_user_by_email: SELECT on users by email. -/
def get_user_by_email (users : List User) (email : String) : Option User :=
  users.find? (fun u => u.email == email)

/-- AuthenticationService._get_user_by_id: SELECT on users by id. -/
def get_user_by_id (users : List User) (user_id : String) : Option User :=
  users.find? (fun u => u.id == user_id)

/-- AuthenticationService._get_active_session: SELECT on user_sessions by id,
user id, and is_active = True. -/
def get_active_session (sessions : List UserSession) (session_id user_id : String) :
    Option UserSession :=
  sessions.find? (fun s => s.id == session_id && s.user_id == user_id && s.is_active)

/-- The credential-checking slice of AuthenticationService.authenticate_user
(lines 93-120, after the rate-limit gate): look the user up by email, verify
the password, then check active and soft-deleted, raising HTTPException(401)
with the source's detail strings. On success the service goes on to create a
session and mint tokens. -/
def authenticate_check (users : List User) (email password : String) :
    Except AuthError User :=
  match get_user_by_email users email with
  | none => .error (.http 401 "Invalid email or password")
  | some user =>
    match verify_password password user.hashed_password with
    | .error e => .error (.passlib e)
    | .ok ok =>
      if !ok then
        .error (.http 401 "Invalid email or password")
      else if !user.is_active then
        .error (.http 401 "Account is deactivated")
      else if user.deleted_at.isSome then
        .error (.http 401 "Account not found")
      else
        .ok user

/-- TokenPair (app/schemas/auth.py). -/
structure TokenPair where
  access_token : TokenStr
  refresh_token : TokenStr
  token_type : String
  expires_in : Int
deriving DecidableEq, Repr

/-- AuthenticationService.refresh_token: decode (jose also checks exp here),
check token type and expiry, load user and active session from the claims,
update the session's last_used_at, mint a new access token, and return it
with THE SAME refresh token; the session rows are otherwise untouched — in
particular access_token_hash is not rewritten. The SQLAlchemy query with
session_id = None (a payload lacking the claim) matches no row. -/
def refresh_token_op (now : Int) (users : List User) (sessions : List UserSession)
    (refresh_token : TokenStr) : Except AuthError (TokenPair × List UserSession) :=
  match decode_token now refresh_token with
  | none => .error (.http 401 "Invalid refresh token")
  | some payload =>
    if !(validate_token_type payload TokenType.REFRESH) then
      .error (.http 401 "Invalid token type")
    else if is_token_expired now payload then
      .error (.http 401 "Refresh token expired")
    else
      match get_user_by_id users payload.sub with
      | none => .error (.http 401 "User not found or inactive")
      | some user =>
        if !user.is_active || user.deleted_at.isSome then
          .error (.http 401 "User not found or inactive")
        else
          match (match payload.session_id with
                 | none => none
                 | some sid => get_active_session sessions sid payload.sub) with
          | none => .error (.http 401 "Session not found or expired")
          | some session =>
            let sessions' := sessions.map (fun s =>
              if s.id == session.id then { s with last_used_at := some now } else s)
            let access_token := create_access_token user.id user.email session.id now
            .ok ({ access_token := access_token, refresh_token := refresh_token,
                   token_type := "bearer",
                   expires_in := ACCESS_TOKEN_EXPIRE_MINUTES * 60 }, sessions')

/-- AuthenticationService._revoke_all_user_sessions: SELECT the user's active
sessions and flip is_active to False on each; returns the revoked count. -/
def revoke_all_user_sessions (sessions : List UserSession) (user_id : String) :
    Nat × List UserSession :=
  ((sessions.filter (fun s => s.user_id == user_id && s.is_active)).length,
   sessions.map (fun s =>
     if s.user_id == user_id && s.is_active then { s with is_active := false } else s))

/-- AuthenticationService.reset_password: decode (jose also checks exp),
check token type PASSWORD_RESET and expiry, load the user from the sub claim
(404 when missing, inactive or soft-deleted), set the new password hash, then
revoke all of the user's sessions. Returns the updated user and both updated
tables. -/
def reset_password_op (now : Int) (users : List User) (sessions : List UserSession)
    (token : TokenStr) (new_password : String) (salt : Nat) :
    Except AuthError (User × List User × List UserSession) :=
  match decode_token now token with
  | none => .error (.http 400 "Invalid reset token")
  | some payload =>
    if !(validate_token_type payload TokenType.PASSWORD_RESET) then
      .error (.http 400 "Invalid token type")
    else if is_token_expired now payload then
      .error (.http 400 "Reset token expired")
    else
      match get_user_by_id users payload.sub with
      | none => .error (.http 404 "User not found")
      | some user =>
        if !user.is_active || user.deleted_at.isSome then
          .error (.http 404 "User not found")
        else
          let user' := { user with hashed_password := hash_password new_password salt }
          let users' := users.map (fun u => if u.id == user.id then user' else u)
          let sessions' := (revoke_all_user_sessions sessions user.id).2
          .ok (user', users', sessions')

/-- AuthenticationService.revoke_session: SELECT the session by id, owner id
and is_active = True; if absent return False, else flip is_active to False
and return True. id is the table's primary key, so the conditional map
rewrites exactly the row scalar_one_or_none found. -/
def revoke_session (sessions : List UserSession) (session_id user_id : String) :
    Bool × List UserSession :=
  match sessions.find? (fun s => s.id == session_id && s.user_id == user_id && s.is_active) with
  | none => (false, sessions)
  | some _ =>
    (true, sessions.map (fun s =>
      if s.id == session_id && s.user_id == user_id && s.is_active then
        { s with is_active := false }
      else s))

/-- AuthenticationService._revoke_session (single-session logout): like
revoke_session but keyed on id only; returns the revoked count (0 or 1). -/
def revoke_single_session (sessions : List UserSession) (session_id : String) :
    Nat × List UserSession :=
  match sessions.find? (fun s => s.id == session_id && s.is_active) with
  | none => (0, sessions)
  | some _ =>
    (1, sessions.map (fun s =>
      if s.id == session_id && s.is_active then { s with is_active := false } else s))

/-! ### Concrete fixtures for witnesses and counterexamples -/

/-- An active, verified user with password "TestPassword123!". -/
def u_active : User :=
  { id := "u1", email := "a@example.com",
    hashed_password := hash_password "TestPassword123!" 0,
    email_verified := true, is_active := true }

/-- The same user, deactivated. -/
def u_inactive : User :=
  { u_active with is_active := false }

/-- The same user, soft-deleted. -/
def u_deleted : User :=
  { u_active with deleted_at := some 500 }

/-! ### Claim C2: login failure signals -/

/-- Claim C2 counterexample: an inactive user supplying the correct password
is rejected with 401 "Account is deactivated", which differs from the generic
"Invalid email or password" — the four login-failure causes do NOT all raise
one and the same detail, so they are not externally indistinguishable. -/
theorem authenticate_detail_counterexample :
    authenticate_check [u_inactive] "a@example.com" "TestPassword123!" =
      Except.error (AuthError.http 401 "Account is deactivated") ∧
    "Account is deactivated" ≠ "Invalid email or password" := by
  constructor
  · rfl
  · decide

/-- Claim C2 (amended): every login-failure cause raises Unauthorized (401),
but only user-not-found and password-mismatch share the generic detail
"Invalid email or password"; an inactive user yields "Account is deactivated"
and a soft-deleted user yields "Account not found", so the last two causes
are distinguishable from the first two by the response detail. -/
theorem authenticate_failure_details (users : List User) (email pw : String) :
    (get_user_by_email users email = none →
      authenticate_check users email pw =
        Except.error (AuthError.http 401 "Invalid email or password")) ∧
    (∀ u, get_user_by_email users email = some u →
      verify_password pw u.hashed_password = Except.ok false →
      authenticate_check users email pw =
        Except.error (AuthError.http 401 "Invalid email or password")) ∧
    (∀ u, get_user_by_email users email = some u →
      verify_password pw u.hashed_password = Except.ok true → u.is_active = false →
      authenticate_check users email pw =
        Except.error (AuthError.http 401 "Account is deactivated")) ∧
    (∀ u, get_user_by_email users email = some u →
      verify_password pw u.hashed_password = Except.ok true → u.is_active = true →
      u.deleted_at.isSome = true →
      authenticate_check users email pw =
        Except.error (AuthError.http 401 "Account not found")) := by
  refine ⟨?_, ?_, ?_, ?_⟩
  · intro h
    unfold authenticate_check
    rw [h]
  · intro u hu hv
    unfold authenticate_check
    rw [hu]
    dsimp only
    rw [hv]
    rfl
  · intro u hu hv hact
    unfold authenticate_check
    rw [hu]
    dsimp only
    rw [hv]
    simp [hact]
  · intro u hu hv hact hdel
    unfold authenticate_check
    rw [hu]
    dsimp only
    rw [hv]
    simp [hact, hdel]

/-- Claim C2 amended-theorem witness: the four failure causes at concrete
inputs, in order: unknown email, wrong password, inactive user, soft-deleted
user. -/
theorem authenticate_failure_details_witness :
    authenticate_check [] "a@example.com" "TestPassword123!" =
      Except.error (AuthError.http 401 "Invalid email or password") ∧
    authenticate_check [u_active] "a@example.com" "WrongPassword456!" =
      Except.error (AuthError.http 401 "Invalid email or password") ∧
    authenticate_check [u_inactive] "a@example.com" "TestPassword123!" =
      Except.error (AuthError.http 401 "Account is deactivated") ∧
    authenticate_check [u_deleted] "a@example.com" "TestPassword123!" =
      Except.error (AuthError.http 401 "Account not found") :=
  ⟨(authenticate_failure_details [] "a@example.com" "TestPassword123!").1 rfl,
   (authenticate_failure_details [u_active] "a@example.com" "WrongPassword456!").2.1
     u_active rfl (by rfl),
   (authenticate_failure_details [u_inactive] "a@example.com" "TestPassword123!").2.2.1
     u_inactive rfl (by rfl) rfl,
   (authenticate_failure_details [u_deleted] "a@example.com" "TestPassword123!").2.2.2
     u_deleted rfl (by rfl) rfl rfl⟩

/-! ### Claim C6: password reset revokes every session -/

/-- No session owned by the given user is active (executable form). -/
def all_user_sessions_revoked (sessions : List UserSession) (user_id : String) : Bool :=
  sessions.all (fun s => !(s.user_id == user_id) || !s.is_active)

/-- After _revoke_all_user_sessions, the user has no active session. -/
theorem revoke_all_user_sessions_revokes (sessions : List UserSession) (uid : String) :
    all_user_sessions_revoked (revoke_all_user_sessions sessions uid).2 uid = true := by
  unfold all_user_sessions_revoked revoke_all_user_sessions
  simp only [List.all_eq_true, List.mem_map]
  rintro s' ⟨s, hs, rfl⟩
  by_cases hc : (s.user_id == uid && s.is_active) = true
  · simp [hc]
  · rw [if_neg hc]
    simp only [Bool.and_eq_true, not_and] at hc
    simp only [Bool.or_eq_true, Bool.not_eq_true]
    by_cases hm : (s.user_id == uid) = true
    · exact Or.inr (by simpa using hc hm)
    · exact Or.inl (by simpa using hm)

/-- Claim C6: whenever reset_password succeeds, every session of the user —
in particular every session that was active before the call — has its active
flag false in the resulting session table: the user ends with zero active
sessions. -/
theorem reset_password_revokes_all (now : Int) (users : List User)
    (sessions : List UserSession) (token : TokenStr) (new_password : String)
    (salt : Nat) (u : User) (users' : List User) (sessions' : List UserSession)
    (h : reset_password_op now users sessions token new_password salt =
      Except.ok (u, users', sessions')) :
    all_user_sessions_revoked sessions' u.id = true := by
  unfold reset_password_op at h
  split at h
  · exact absurd h (by simp)
  · split at h
    · exact absurd h (by simp)
    · split at h
      · exact absurd h (by simp)
      · split at h
        · exact absurd h (by simp)
        · split at h
          · exact absurd h (by simp)
          · rw [Except.ok.injEq, Prod.mk.injEq, Prod.mk.injEq] at h
            obtain ⟨hu, -, hs⟩ := h
            rw [← hs, ← hu]
            exact revoke_all_user_sessions_revokes sessions _

/-- Three active sessions for user "u1". -/
def sess1 : UserSession :=
  { id := "s1", user_id := "u1", access_token_expires_at := 1800,
    refresh_token_expires_at := 604800, is_active := true, last_used_at := some 0 }

def sess2 : UserSession :=
  { sess1 with id := "s2" }

def sess3 : UserSession :=
  { sess1 with id := "s3" }

/-- A password-reset token for user "u1", minted at time 0 (expires at 3600). -/
def reset_tok0 : TokenStr :=
  create_password_reset_token "u1" "a@example.com" 0

/-- Claim C6 witness: the user of u_active with three active sessions
completes a password reset at time 100 with a valid unexpired reset token and
ends with zero active sessions. -/
theorem reset_password_revokes_all_witness :
    all_user_sessions_revoked
      [{ sess1 with is_active := false }, { sess2 with is_active := false },
       { sess3 with is_active := false }]
      ({ u_active with hashed_password := hash_password "NewPassword123!" 1 } : User).id =
      true :=
  reset_password_revokes_all 100 [u_active] [sess1, sess2, sess3] reset_tok0
    "NewPassword123!" 1
    { u_active with hashed_password := hash_password "NewPassword123!" 1 }
    [{ u_active with hashed_password := hash_password "NewPassword123!" 1 }]
    [{ sess1 with is_active := false }, { sess2 with is_active := false },
     { sess3 with is_active := false }]
    (by rfl)


/-! ### Claim C7: session revocation is terminal -/

/-- The session identified by (session_id, user_id) is inactive wherever it
appears in the table (executable form). -/
def session_revoked_state (sessions : List UserSession) (session_id user_id : String) : Bool :=
  sessions.all (fun s => !(s.id == session_id && s.user_id == user_id) || !s.is_active)

/-- Propositional characterization of session_revoked_state. -/
theorem session_revoked_state_iff (sessions : List UserSession) (sid uid : String) :
    session_revoked_state sessions sid uid = true ↔
      ∀ s ∈ sessions, s.id = sid → s.user_id = uid → s.is_active = false := by
  unfold session_revoked_state
  rw [List.all_eq_true]
  refine forall_congr' (fun s => forall_congr' (fun hs => ?_))
  cases hact : s.is_active
  · simp [hact]
  · simp [hact]
    tauto

/-- The session-table mutations the auth service can perform after a
revocation: revoke_session, _revoke_session (logout), _revoke_all_user_sessions
(reset-password / logout-all), the last_used_at touch done by refresh_token,
and _create_user_session (login), which INSERTs a row under a freshly
generated random session id. -/
inductive SessionOp
  | revoke (session_id user_id : String)
  | revokeSingle (session_id : String)
  | revokeAll (user_id : String)
  | touch (session_id : String) (now : Int)
  | create (s : UserSession)
deriving DecidableEq, Repr

/-- Run one session-table mutation. -/
def SessionOp.run (op : SessionOp) (sessions : List UserSession) : List UserSession :=
  match op with
  | .revoke sid uid => (revoke_session sessions sid uid).2
  | .revokeSingle sid => (revoke_single_session sessions sid).2
  | .revokeAll uid => (revoke_all_user_sessions sessions uid).2
  | .touch sid now => sessions.map (fun s =>
      if s.id == sid then { s with last_used_at := some now } else s)
  | .create s => sessions ++ [s]

/-- An operation does not INSERT a row under the given session id. For create
this encodes primary-key freshness: generate_session_id draws a new random
id, and the INSERT would violate the primary key if it collided with an
existing one. -/
def SessionOp.freshFor (op : SessionOp) (session_id : String) : Bool :=
  match op with
  | .create s => !(s.id == session_id)
  | _ => true

/-- A map that at most deactivates rows preserves the revoked-session
property. -/
theorem revoked_after_map_deactivate (sessions : List UserSession) (sid uid : String)
    (cond : UserSession → Bool)
    (h : ∀ s ∈ sessions, s.id = sid → s.user_id = uid → s.is_active = false) :
    ∀ s' ∈ sessions.map (fun s => if cond s = true then { s with is_active := false } else s),
      s'.id = sid → s'.user_id = uid → s'.is_active = false := by
  intro s' hs'
  rw [List.mem_map] at hs'
  obtain ⟨s, hs, rfl⟩ := hs'
  by_cases hc : cond s = true
  · rw [if_pos hc]
    intro _ _
    rfl
  · rw [if_neg hc]
    exact h s hs

/-- Every mutation that stays fresh for the pair's session id preserves
"this session is revoked": no operation flips an inactive session's active
flag back to true. -/
theorem session_revoked_preserved (sessions : List UserSession)
    (sid uid : String) (op : SessionOp)
    (h : session_revoked_state sessions sid uid = true)
    (hf : SessionOp.freshFor op sid = true) :
    session_revoked_state (SessionOp.run op sessions) sid uid = true := by
  rw [session_revoked_state_iff] at h ⊢
  cases op with
  | revoke sid' uid' =>
    simp only [SessionOp.run]
    unfold revoke_session
    split
    · exact h
    · exact revoked_after_map_deactivate sessions sid uid _ h
  | revokeSingle sid' =>
    simp only [SessionOp.run]
    unfold revoke_single_session
    split
    · exact h
    · exact revoked_after_map_deactivate sessions sid uid _ h
  | revokeAll uid' =>
    simp only [SessionOp.run]
    unfold revoke_all_user_sessions
    exact revoked_after_map_deactivate sessions sid uid _ h
  | touch sid' now =>
    simp only [SessionOp.run]
    intro s' hs'
    rw [List.mem_map] at hs'
    obtain ⟨s, hs, rfl⟩ := hs'
    by_cases hc : (s.id == sid') = true
    · rw [if_pos hc]
      exact h s hs
    · rw [if_neg hc]
      exact h s hs
  | create snew =>
    simp only [SessionOp.run]
    intro s' hs'
    rw [List.mem_append] at hs'
    rcases hs' with hs' | hs'
    · exact h s' hs'
    · rw [List.mem_singleton] at hs'
      subst hs'
      simp only [SessionOp.freshFor, Bool.not_eq_true', beq_eq_false_iff_ne] at hf
      intro hid
      exact absurd hid hf

/-- Any sequence of fresh mutations preserves "this session is revoked". -/
theorem session_revoked_foldl (ops : List SessionOp) (sessions : List UserSession)
    (sid uid : String)
    (h : session_revoked_state sessions sid uid = true)
    (hf : ops.all (fun op => SessionOp.freshFor op sid) = true) :
    session_revoked_state (ops.foldl (fun l op => SessionOp.run op l) sessions) sid uid
      = true := by
  induction ops generalizing sessions with
  | nil => exact h
  | cons op rest ih =>
    simp only [List.all_cons, Bool.and_eq_true] at hf
    rw [List.foldl_cons]
    exact ih (SessionOp.run op sessions)
      (session_revoked_preserved sessions sid uid op h hf.1)
      (by rw [List.all_eq_true]; exact fun x hx => List.all_eq_true.mp hf.2 x hx)

/-- A successful revoke_session leaves the (session_id, user_id) pair with no
active row. -/
theorem revoke_session_revokes (sessions : List UserSession) (sid uid : String)
    (h : (revoke_session sessions sid uid).1 = true) :
    session_revoked_state (revoke_session sessions sid uid).2 sid uid = true := by
  rw [session_revoked_state_iff]
  unfold revoke_session at h ⊢
  split at h
  · exact absurd h (by simp)
  · dsimp only
    intro s' hs'
    rw [List.mem_map] at hs'
    obtain ⟨s, hs, rfl⟩ := hs'
    by_cases hc : (s.id == sid && s.user_id == uid && s.is_active) = true
    · rw [if_pos hc]
      intro _ _
      rfl
    · rw [if_neg hc]
      intro hid huid
      cases hb : s.is_active
      · rfl
      · exact absurd (by simp [hid, huid, hb]) hc

/-- Once the pair is revoked, _get_active_session finds nothing. -/
theorem get_active_session_none_of_revoked (sessions : List UserSession)
    (sid uid : String) (h : session_revoked_state sessions sid uid = true) :
    get_active_session sessions sid uid = none := by
  rw [session_revoked_state_iff] at h
  unfold get_active_session
  rw [List.find?_eq_none]
  intro s hs hcontra
  rw [Bool.and_eq_true, Bool.and_eq_true] at hcontra
  obtain ⟨⟨hid, huid⟩, hact⟩ := hcontra
  have hfalse := h s hs (by simpa using hid) (by simpa using huid)
  rw [hfalse] at hact
  exact Bool.false_ne_true hact

/-- Once the pair is revoked, a second revoke_session call returns false. -/
theorem revoke_session_false_of_revoked (sessions : List UserSession)
    (sid uid : String) (h : session_revoked_state sessions sid uid = true) :
    (revoke_session sessions sid uid).1 = false := by
  have hnone := get_active_session_none_of_revoked sessions sid uid h
  unfold get_active_session at hnone
  unfold revoke_session
  rw [hnone]

/-- Claim C7: session revocation is terminal — once revoke_session succeeds
on a (session_id, user_id) pair, _get_active_session on that pair returns
nothing, a second revoke_session call on the same pair returns false, and no
sequence of subsequent service operations on the session table (revocations,
refresh touches, or logins creating sessions under fresh ids) ever sets the
session's active flag back to true. -/
theorem revoke_session_terminal (sessions : List UserSession) (sid uid : String)
    (h : (revoke_session sessions sid uid).1 = true) :
    session_revoked_state (revoke_session sessions sid uid).2 sid uid = true ∧
    get_active_session (revoke_session sessions sid uid).2 sid uid = none ∧
    (revoke_session (revoke_session sessions sid uid).2 sid uid).1 = false ∧
    (∀ ops : List SessionOp, ops.all (fun op => SessionOp.freshFor op sid) = true →
      session_revoked_state
        (ops.foldl (fun l op => SessionOp.run op l) (revoke_session sessions sid uid).2)
        sid uid = true) := by
  have h1 := revoke_session_revokes sessions sid uid h
  exact ⟨h1, get_active_session_none_of_revoked _ sid uid h1,
    revoke_session_false_of_revoked _ sid uid h1,
    fun ops hf => session_revoked_foldl ops _ sid uid h1 hf⟩

/-- A session under a different, fresh id. -/
def sess9 : UserSession :=
  { sess1 with id := "s9" }

/-- Claim C7 witness: revoking sess1 (owned by "u1") succeeds, after which
the lookup fails, a second revoke returns false, and a refresh touch, a
revoke-all and a login-created session under fresh id "s9" leave it revoked. -/
theorem revoke_session_terminal_witness :
    session_revoked_state (revoke_session [sess1] "s1" "u1").2 "s1" "u1" = true ∧
    get_active_session (revoke_session [sess1] "s1" "u1").2 "s1" "u1" = none ∧
    (revoke_session (revoke_session [sess1] "s1" "u1").2 "s1" "u1").1 = false ∧
    session_revoked_state
      ([SessionOp.touch "s1" 5, SessionOp.revokeAll "u1",
        SessionOp.create sess9].foldl (fun l op => SessionOp.run op l)
        (revoke_session [sess1] "s1" "u1").2) "s1" "u1" = true := by
  have h := revoke_session_terminal [sess1] "s1" "u1" (by rfl)
  exact ⟨h.1, h.2.1, h.2.2.1, h.2.2.2 _ (by rfl)⟩

/-! ### Claim C3: refresh and the stored token hashes -/

/-- Claim C3 (amended): every successful refresh creates no new SessionRecord
and returns the refresh token unchanged, but it does NOT update the stored
access-token hash: id, owner, both token-hash fingerprints and the active
flag of every session row are left exactly as they were (only last_used_at is
touched), so the stored access-token hash remains that of the access token
issued at login, not of the newly minted one. -/
theorem refresh_preserves_session_records (now : Int) (users : List User)
    (sessions : List UserSession) (tok : TokenStr) (pair : TokenPair)
    (sessions' : List UserSession)
    (h : refresh_token_op now users sessions tok = Except.ok (pair, sessions')) :
    pair.refresh_token = tok ∧
    sessions'.map (fun s =>
        (s.id, s.user_id, s.access_token_hash, s.refresh_token_hash, s.is_active)) =
      sessions.map (fun s =>
        (s.id, s.user_id, s.access_token_hash, s.refresh_token_hash, s.is_active)) := by
  unfold refresh_token_op at h
  split at h
  · exact absurd h (by simp)
  · split at h
    · exact absurd h (by simp)
    · split at h
      · exact absurd h (by simp)
      · split at h
        · exact absurd h (by simp)
        · split at h
          · exact absurd h (by simp)
          · split at h
            · exact absurd h (by simp)
            · rw [Except.ok.injEq, Prod.mk.injEq] at h
              obtain ⟨hp, hs⟩ := h
              constructor
              · rw [← hp]
              · rw [← hs, List.map_map]
                apply List.map_congr_left
                intro a _
                simp only [Function.comp_apply]
                split
                · rfl
                · rfl

/-- The access and refresh tokens minted at login for session "s1" at time 0. -/
def A0 : TokenStr := create_access_token "u1" "a@example.com" "s1" 0

def R0 : TokenStr := create_refresh_token "u1" "a@example.com" "s1" 0

/-- The session row as _generate_token_pair leaves it after login at time 0:
both hash columns hold the fingerprints of the login-time tokens. -/
def login_sess : UserSession :=
  { id := "s1", user_id := "u1",
    access_token_hash := some (hash_token A0),
    refresh_token_hash := some (hash_token R0),
    access_token_expires_at := 1800, refresh_token_expires_at := 2592000,
    is_active := true, last_used_at := some 0 }

/-- Claim C3 amended-theorem witness: a concrete successful refresh at time
100 returns the same refresh token and leaves the session row's identity,
hashes and active flag unchanged. -/
theorem refresh_preserves_session_records_witness :
    ({ access_token := create_access_token "u1" "a@example.com" "s1" 100,
       refresh_token := R0, token_type := "bearer",
       expires_in := ACCESS_TOKEN_EXPIRE_MINUTES * 60 } : TokenPair).refresh_token = R0 ∧
    [{ login_sess with last_used_at := some 100 }].map (fun s =>
        (s.id, s.user_id, s.access_token_hash, s.refresh_token_hash, s.is_active)) =
      [login_sess].map (fun s =>
        (s.id, s.user_id, s.access_token_hash, s.refresh_token_hash, s.is_active)) :=
  refresh_preserves_session_records 100 [u_active] [login_sess] R0
    { access_token := create_access_token "u1" "a@example.com" "s1" 100,
      refresh_token := R0, token_type := "bearer",
      expires_in := ACCESS_TOKEN_EXPIRE_MINUTES * 60 }
    [{ login_sess with last_used_at := some 100 }]
    (by rfl)

/-- Claim C3 counterexample: a successful refresh at time 100 mints a new
access token (iat = 100) but the session row keeps the hash of the login-time
access token A0 — the stored access-token fingerprint does NOT match the most
recently issued access token, refuting the claim that refresh updates it. -/
theorem refresh_stale_access_hash_counterexample :
    refresh_token_op 100 [u_active] [login_sess] R0 =
      Except.ok ({ access_token := create_access_token "u1" "a@example.com" "s1" 100,
                   refresh_token := R0, token_type := "bearer",
                   expires_in := ACCESS_TOKEN_EXPIRE_MINUTES * 60 },
                 [{ login_sess with last_used_at := some 100 }]) ∧
    ({ login_sess with last_used_at := some 100 } : UserSession).access_token_hash ≠
      some (hash_token (create_access_token "u1" "a@example.com" "s1" 100)) := by
  constructor
  · rfl
  · decide
